import Mathlib

/-!
Verification of the blood-supply emergency orchestrator.

This file gives a shallow embedding of the allocation core of the
repository (src/orchestrator.py, with the compatibility table shared by
src/gnn_model.py) and proves or refutes the frozen claims about it.

Modelling conventions:
* Python strings are Lean String; an attribute that may be absent from a
  node or edge attribute dictionary is an Option.
* Python float coordinates and distances are modelled as Rat.  The
  floating-point haversine function of graph_builder.py is trigonometric
  and is treated as an abstract distance parameter hav; no claim depends
  on its numeric values.
* The networkx DiGraph is a list of (id, attributes) nodes plus a list
  of attributed edges; in_edges / out_edges keep list order, standing in
  for the iteration order of networkx.
* Python truthiness on optional floats (if h_lat and h_lon) is modelled
  by truthyR: present and nonzero.
* datetime.now() is modelled by an explicit clock argument now.
* Presentation-only f-string payloads (the message field of results and
  the donor message text) are elided; every field a claim mentions is
  kept.
-/

/-- Attribute dictionary of a graph node, as read by the orchestrator. -/
structure NodeData where
  kind : Option String := none
  blood_type : Option String := none
  expiry_days_remaining : Option Int := none
  lat : Option Rat := none
  lon : Option Rat := none
  label : Option String := none
  deriving Repr, DecidableEq

/-- Directed attributed edge of the supply graph. -/
structure GEdge where
  src : String
  tgt : String
  predicate : Option String := none
  distance_km : Option Rat := none
  deriving Repr, DecidableEq

/-- The supply graph: nodes with attribute dictionaries and directed edges. -/
structure Graph where
  nodes : List (String × NodeData)
  edges : List GEdge
  deriving Repr, DecidableEq

/-- Membership test, modelling the Python test node_id in G. -/
def Graph.hasNode (G : Graph) (id : String) : Bool :=
  (G.nodes.lookup id).isSome

/-- Attribute lookup, modelling G.nodes.get(id, \x7b\x7d): absent nodes give
the empty attribute dictionary. -/
def Graph.nodeData (G : Graph) (id : String) : NodeData :=
  (G.nodes.lookup id).getD {}

/-- Edges into a node, modelling G.in_edges(id, data=True). -/
def Graph.inEdges (G : Graph) (id : String) : List GEdge :=
  G.edges.filter (fun e => e.tgt = id)

/-- Edges out of a node, modelling G.out_edges(id, data=True). -/
def Graph.outEdges (G : Graph) (id : String) : List GEdge :=
  G.edges.filter (fun e => e.src = id)

/-- Python truthiness of an optional numeric attribute: present and
nonzero (0.0 is falsy in Python). -/
def truthyR : Option Rat → Bool
  | some x => decide (x ≠ 0)
  | none => false

/-- The donor-to-recipient compatibility dictionary, written identically
in orchestrator.py (\x5fis_compatible) and gnn_model.py
(SymbolicBloodRules.COMPATIBILITY); dictionary lookup with default []. -/
def compat_table (donor : String) : List String :=
  if donor = "O-" then ["O-", "O+", "A-", "A+", "B-", "B+", "AB-", "AB+"]
  else if donor = "O+" then ["O+", "A+", "B+", "AB+"]
  else if donor = "A-" then ["A-", "A+", "AB-", "AB+"]
  else if donor = "A+" then ["A+", "AB+"]
  else if donor = "B-" then ["B-", "B+", "AB-", "AB+"]
  else if donor = "B+" then ["B+", "AB+"]
  else if donor = "AB-" then ["AB-", "AB+"]
  else if donor = "AB+" then ["AB+"]
  else []

/-- EmergencyOrchestrator.\x5fis_compatible: falsy (missing or empty)
type strings give false, otherwise recipient membership in the table row
of the donor. -/
def is_compatible (donor_type recipient_type : Option String) : Bool :=
  match donor_type, recipient_type with
  | some d, some r => if d = "" ∨ r = "" then false else decide (r ∈ compat_table d)
  | _, _ => false

/-- SymbolicBloodRules.can_donate of gnn_model.py: bare table lookup
without the falsy guard. -/
def can_donate (donor_type recipient_type : String) : Bool :=
  decide (recipient_type ∈ compat_table donor_type)

/-- The eight ABO/Rh blood type strings. -/
def the8 : List String :=
  ["O-", "O+", "A-", "A+", "B-", "B+", "AB-", "AB+"]

/-- ABO blood group, for the medical reference table. -/
inductive ABO
  | O
  | A
  | B
  | AB
  deriving Repr, DecidableEq

/-- A parsed ABO/Rh blood type: group plus Rh positivity. -/
structure BloodType where
  abo : ABO
  rhPos : Bool
  deriving Repr, DecidableEq

/-- Parse one of the eight type strings. -/
def parseBloodType (s : String) : Option BloodType :=
  if s = "O-" then some ⟨ABO.O, false⟩
  else if s = "O+" then some ⟨ABO.O, true⟩
  else if s = "A-" then some ⟨ABO.A, false⟩
  else if s = "A+" then some ⟨ABO.A, true⟩
  else if s = "B-" then some ⟨ABO.B, false⟩
  else if s = "B+" then some ⟨ABO.B, true⟩
  else if s = "AB-" then some ⟨ABO.AB, false⟩
  else if s = "AB+" then some ⟨ABO.AB, true⟩
  else none

/-- Reference ABO donation rule: the donor group antigens must be a
subset of the recipient group antigens. -/
def aboDonatesTo : ABO → ABO → Bool
  | ABO.O, _ => true
  | ABO.A, ABO.A => true
  | ABO.A, ABO.AB => true
  | ABO.B, ABO.B => true
  | ABO.B, ABO.AB => true
  | ABO.AB, ABO.AB => true
  | _, _ => false

/-- Reference ABO/Rh one-way donation rule: ABO subset rule and an
Rh-positive donor needs an Rh-positive recipient. -/
def standardCanDonate (d r : BloodType) : Bool :=
  aboDonatesTo d.abo r.abo && (!d.rhPos || r.rhPos)

lemma compat_table_of_not_mem {d : String} (hd : d ∉ the8) :
    compat_table d = [] := by
  unfold compat_table
  repeat' split
  all_goals first
    | rfl
    | (exfalso; apply hd; subst_eqs; decide)

lemma mem_the8_of_mem_compat_table {d r : String}
    (h : r ∈ compat_table d) : r ∈ the8 := by
  unfold compat_table at h
  repeat' split at h
  all_goals simp only [List.mem_cons, List.not_mem_nil] at h
  all_goals first
    | exact absurd h not_false
    | (rcases h with h | h | h | h | h | h | h | h | h <;> simp_all [the8])

lemma is_compatible_eq_can_donate (d r : String) :
    is_compatible (some d) (some r) = can_donate d r := by
  show (if d = "" ∨ r = "" then false else decide (r ∈ compat_table d))
    = decide (r ∈ compat_table d)
  split
  · rename_i hdr
    rcases hdr with hd | hr
    · subst hd
      rw [compat_table_of_not_mem (by decide)]
      simp
    · subst hr
      symm
      simp only [decide_eq_false_iff_not]
      exact fun hc => (by decide : "" ∉ the8) (mem_the8_of_mem_compat_table hc)
  · rfl

/-- C2: on the eight ABO/Rh types, is_compatible agrees with the medical
reference rule (ABO antigen subset plus Rh restriction); O- donates to
all eight and AB+ receives from all eight; any input where either string
is missing, empty or not one of the eight types yields false, so the
function is total; and it coincides pointwise with
SymbolicBloodRules.can_donate of gnn_model.py. -/
theorem c2_compatibility_table :
    (∀ d ∈ the8, ∀ r ∈ the8,
      is_compatible (some d) (some r) =
        ((parseBloodType d).bind
          (fun bd => (parseBloodType r).map (standardCanDonate bd))).getD false)
    ∧ (∀ r ∈ the8, is_compatible (some "O-") (some r) = true)
    ∧ (∀ d ∈ the8, is_compatible (some d) (some "AB+") = true)
    ∧ (∀ d r : Option String,
        d ∉ the8.map some ∨ r ∉ the8.map some → is_compatible d r = false)
    ∧ (∀ d r : String, is_compatible (some d) (some r) = can_donate d r) := by
  refine ⟨by decide, by decide, by decide, ?_, is_compatible_eq_can_donate⟩
  rintro (_ | d) (_ | r) h
  · rfl
  · rfl
  · rfl
  · simp only [List.mem_map] at h
    show (if d = "" ∨ r = "" then false else decide (r ∈ compat_table d)) = false
    split
    · rfl
    · rcases h with h | h
      · have hd : d ∉ the8 := fun hm => h ⟨d, hm, rfl⟩
        rw [compat_table_of_not_mem hd]
        simp
      · have hr : r ∉ the8 := fun hm => h ⟨r, hm, rfl⟩
        simp only [decide_eq_false_iff_not]
        exact fun hc => hr (mem_the8_of_mem_compat_table hc)

/-- Witness for C2: concrete instances of each quantified part. -/
theorem c2_compatibility_table_witness :
    is_compatible (some "O+") (some "AB+") =
      ((parseBloodType "O+").bind
        (fun bd => (parseBloodType "AB+").map (standardCanDonate bd))).getD false
    ∧ is_compatible (some "O-") (some "B+") = true
    ∧ is_compatible (some "A-") (some "AB+") = true
    ∧ is_compatible (some "XX") (some "A+") = false
    ∧ is_compatible (some "A+") (some "A-") = can_donate "A+" "A-" := by
  obtain ⟨h1, h2, h3, h4, h5⟩ := c2_compatibility_table
  exact ⟨h1 "O+" (by decide) "AB+" (by decide), h2 "B+" (by decide),
    h3 "A-" (by decide), h4 (some "XX") (some "A+") (Or.inl (by decide)),
    h5 "A+" "A-"⟩

/-- A unit record produced by get_available_units: unit id, its type and
the expiry_days attribute (dictionary default 30). -/
structure UnitRef where
  unit_id : String
  blood_type : Option String
  expiry_days : Int
  deriving Repr, DecidableEq

/-- A candidate source location with its distance and available units. -/
structure Source where
  location_id : String
  distance_km : Rat
  available_units : List UnitRef
  deriving Repr, DecidableEq

/-- A planned transfer; the Python dictionary key from is fromLoc and to
is toLoc. -/
structure Transfer where
  fromLoc : String
  toLoc : String
  unit_id : String
  blood_type : Option String
  distance_km : Rat
  expiry_days : Int
  score : Rat
  deriving Repr, DecidableEq

/-- A notification dictionary (recipient, type, message, priority). -/
structure Notification where
  recipient : String
  ntype : String
  message : String
  priority : String
  deriving Repr, DecidableEq

/-- An entry of the reservation ledger active_transfers; the timestamp
is the clock value at reservation time. -/
structure Reservation where
  unit_id : String
  status : String
  timestamp : Nat
  deriving Repr, DecidableEq

/-- The mutable state of EmergencyOrchestrator: the supply graph and the
reservation ledger active_transfers. -/
structure OrchestratorState where
  G : Graph
  active_transfers : List Reservation
  deriving Repr, DecidableEq

/-- The result dictionary of handle_emergency.  The presentation-only
message and source keys are elided; branches that omit the
notifications key are modelled with an empty list. -/
structure EmergencyResult where
  status : String
  transfers : List Transfer
  units_secured : Nat
  eta_minutes : Int
  notifications : List Notification
  deriving Repr, DecidableEq

/-- EmergencyOrchestrator.check_local_inventory (leading underscore
dropped): blood units already at the hospital, via HAS_BLOOD_UNIT
in-edges filtered by compatibility; an absent hospital gives []. -/
def check_local_inventory (G : Graph) (hospital_id blood_type : String) : List String :=
  if ¬ G.hasNode hospital_id then []
  else
    (G.inEdges hospital_id).filterMap (fun e =>
      if e.predicate = some "HAS_BLOOD_UNIT"
          ∧ is_compatible (G.nodeData e.src).blood_type (some blood_type) = true then
        some e.src
      else none)

/-- EmergencyOrchestrator.get_available_units: compatible units at a
location via HAS_BLOOD_UNIT in-edges; expiry_days defaults to 30 when
the attribute is missing; an absent location gives []. -/
def get_available_units (G : Graph) (location_id blood_type : String) : List UnitRef :=
  if ¬ G.hasNode location_id then []
  else
    (G.inEdges location_id).filterMap (fun e =>
      if e.predicate = some "HAS_BLOOD_UNIT" then
        let ud := G.nodeData e.src
        if is_compatible ud.blood_type (some blood_type) = true then
          some ⟨e.src, ud.blood_type, ud.expiry_days_remaining.getD 30⟩
        else none
      else none)

/-- Strategy 1 of find_compatible_sources: NEARBY out-edges to
bloodbank or hospital neighbors holding at least one compatible unit;
distance_km defaults to 5.0 when the edge lacks the attribute. -/
def fastSources (G : Graph) (hospital_id blood_type : String) : List Source :=
  (G.outEdges hospital_id).filterMap (fun e =>
    if e.predicate = some "NEARBY" then
      let nd := G.nodeData e.tgt
      if nd.kind = some "bloodbank" ∨ nd.kind = some "hospital" then
        let units := get_available_units G e.tgt blood_type
        if units ≠ [] then some ⟨e.tgt, e.distance_km.getD 5, units⟩ else none
      else none
    else none)

/-- Strategy 2, first scan of find_compatible_sources: every bloodbank
node with truthy coordinates within 20 km of the hospital, holding at
least one compatible unit.  hav abstracts the floating-point haversine
of graph_builder.py. -/
def fallbackBanks (hav : Rat → Rat → Rat → Rat → Rat) (G : Graph)
    (blood_type : String) (h_lat h_lon : Rat) : List Source :=
  G.nodes.filterMap (fun p =>
    if p.2.kind = some "bloodbank" then
      if truthyR p.2.lat ∧ truthyR p.2.lon then
        let dist := hav h_lat h_lon (p.2.lat.getD 0) (p.2.lon.getD 0)
        if dist ≤ 20 then
          let units := get_available_units G p.1 blood_type
          if units ≠ [] then some ⟨p.1, dist, units⟩ else none
        else none
      else none
    else none)

/-- Strategy 2, second scan of find_compatible_sources: every other
hospital node, under the same coordinate, radius and stock conditions. -/
def fallbackHospitals (hav : Rat → Rat → Rat → Rat → Rat) (G : Graph)
    (hospital_id blood_type : String) (h_lat h_lon : Rat) : List Source :=
  G.nodes.filterMap (fun p =>
    if p.2.kind = some "hospital" ∧ p.1 ≠ hospital_id then
      if truthyR p.2.lat ∧ truthyR p.2.lon then
        let dist := hav h_lat h_lon (p.2.lat.getD 0) (p.2.lon.getD 0)
        if dist ≤ 20 then
          let units := get_available_units G p.1 blood_type
          if units ≠ [] then some ⟨p.1, dist, units⟩ else none
        else none
      else none
    else none)

/-- The whole 20 km geodesic scan of strategy 2: bloodbanks then other
hospitals. -/
def fallbackScan (hav : Rat → Rat → Rat → Rat → Rat) (G : Graph)
    (hospital_id blood_type : String) (h_lat h_lon : Rat) : List Source :=
  fallbackBanks hav G blood_type h_lat h_lon
    ++ fallbackHospitals hav G hospital_id blood_type h_lat h_lon

/-- EmergencyOrchestrator.find_compatible_sources: strategy 1 over
NEARBY edges; strategy 2 appended only when strategy 1 produced zero
sources and the hospital has truthy lat and lon; an absent hospital
gives []. -/
def find_compatible_sources (hav : Rat → Rat → Rat → Rat → Rat) (G : Graph)
    (hospital_id blood_type : String) : List Source :=
  if ¬ G.hasNode hospital_id then []
  else
    let hd := G.nodeData hospital_id
    let sources := fastSources G hospital_id blood_type
    if sources.length = 0 ∧ truthyR hd.lat = true ∧ truthyR hd.lon = true then
      sources ++ fallbackScan hav G hospital_id blood_type (hd.lat.getD 0) (hd.lon.getD 0)
    else sources

/-- The transfer dictionary built inside greedy_allocation for one unit
of one source. -/
def transferOf (hospital_id : String) (s : Source) (u : UnitRef) : Transfer :=
  ⟨s.location_id, hospital_id, u.unit_id, u.blood_type, s.distance_km, u.expiry_days,
    1 / (s.distance_km + 1)⟩

/-- Python sorted(sources, key distance_km): sorted is a stable sort,
and insertionSort with a total preorder is stable, so the two agree. -/
def sortSources (sources : List Source) : List Source :=
  List.insertionSort (fun a b => a.distance_km ≤ b.distance_km) sources

/-- Python sorted(units, key expiry_days), same stable-sort modelling. -/
def sortUnits (units : List UnitRef) : List UnitRef :=
  List.insertionSort (fun a b => a.expiry_days ≤ b.expiry_days) units

/-- Inner loop of greedy_allocation over the units of one source, with
the early break when units_needed transfers have been collected. -/
def greedyInner (hospital_id : String) (s : Source) (units_needed : Int) :
    List UnitRef → List Transfer → List Transfer
  | [], acc => acc
  | u :: us, acc =>
    if units_needed ≤ (acc.length : Int) then acc
    else greedyInner hospital_id s units_needed us (acc ++ [transferOf hospital_id s u])

/-- Outer loop of greedy_allocation over distance-sorted sources, with
the early break after a source completes the count. -/
def greedyOuter (hospital_id : String) (units_needed : Int) :
    List Source → List Transfer → List Transfer
  | [], acc => acc
  | s :: ss, acc =>
    let acc2 := greedyInner hospital_id s units_needed (sortUnits s.available_units) acc
    if units_needed ≤ (acc2.length : Int) then acc2
    else greedyOuter hospital_id units_needed ss acc2

/-- EmergencyOrchestrator.greedy_allocation. -/
def greedy_allocation (hospital_id : String) (sources : List Source)
    (units_needed : Int) : List Transfer :=
  greedyOuter hospital_id units_needed (sortSources sources) []

/-- EmergencyOrchestrator.generate_notifications. -/
def generate_notifications (hospital_id : String) (transfers : List Transfer) :
    List Notification :=
  ⟨hospital_id, "blood_incoming", toString transfers.length ++ " units en route", "high"⟩
    :: transfers.map (fun t =>
      ⟨t.fromLoc, "transfer_request",
        "Transfer " ++ t.unit_id ++ " to " ++ hospital_id, "high"⟩)

/-- EmergencyOrchestrator.reserve_units: one ledger append per transfer,
stamped with the current clock. -/
def reserve_units (st : OrchestratorState) (transfers : List Transfer) (now : Nat) :
    OrchestratorState :=
  { st with
    active_transfers :=
      st.active_transfers ++ transfers.map (fun t => ⟨t.unit_id, "reserved", now⟩) }

/-- Python max(list, default=0). -/
def pyMaxD (l : List Rat) : Rat :=
  match l with
  | [] => 0
  | x :: xs => xs.foldl max x

/-- Python int() on a rational: truncation toward zero, which is exactly
numerator divided by denominator with Int T-division. -/
def pyInt (q : Rat) : Int :=
  q.num / (q.den : Int)

/-- The optional learned scorer gnn.find_optimal_transfers: it may
return a transfer list or raise (Except.error models the exception). -/
def Scorer : Type :=
  Graph → String → String → Int → Except String (List Transfer)

/-- Step 3 of handle_emergency: call the scorer when configured, fall
back to greedy_allocation when it raises or is absent. -/
def allocatedTransfers (gnn : Option Scorer) (G : Graph)
    (emergency_id hospital_id required_blood_type : String)
    (sources : List Source) (units_needed : Int) : List Transfer :=
  match gnn with
  | some f =>
    match f G emergency_id required_blood_type units_needed with
    | Except.ok ts => ts
    | Except.error _ => greedy_allocation hospital_id sources units_needed
  | none => greedy_allocation hospital_id sources units_needed

/-- EmergencyOrchestrator.handle_emergency: local check, source
discovery, allocation (scorer with greedy fallback), ETA, notifications
and reservation.  Returns the result and the successor state. -/
def handle_emergency (hav : Rat → Rat → Rat → Rat → Rat) (gnn : Option Scorer)
    (st : OrchestratorState) (now : Nat) (emergency_id hospital_id : String)
    (required_blood_type : String) (units_required : Int) :
    EmergencyResult × OrchestratorState :=
  let local_units := check_local_inventory st.G hospital_id required_blood_type
  let units_needed : Int := units_required - local_units.length
  if units_needed ≤ 0 then
    (⟨"success", [], local_units.length, 0, []⟩, st)
  else
    let compatible_sources := find_compatible_sources hav st.G hospital_id required_blood_type
    if compatible_sources = [] then
      (⟨"failed", [], local_units.length, 0, []⟩, st)
    else
      let transfers := allocatedTransfers gnn st.G emergency_id hospital_id
        required_blood_type compatible_sources units_needed
      let max_eta := pyMaxD (transfers.map (fun t => t.distance_km * 3))
      let notifications := generate_notifications hospital_id transfers
      let st2 := reserve_units st transfers now
      let status := if units_needed ≤ (transfers.length : Int) then "success" else "partial"
      (⟨status, transfers, local_units.length + transfers.length, pyInt max_eta,
        notifications⟩, st2)

/-- The nearest-bloodbank record built by find_nearest_bloodbank. -/
structure NearestBB where
  id : String
  name : String
  distance : Rat
  deriving Repr, DecidableEq

/-- The loop filter of find_nearest_bloodbank: a NEARBY edge whose
target node has kind bloodbank. -/
def isCandidate (G : Graph) (e : GEdge) : Prop :=
  e.predicate = some "NEARBY" ∧ (G.nodeData e.tgt).kind = some "bloodbank"

instance (G : Graph) (e : GEdge) : Decidable (isCandidate G e) :=
  inferInstanceAs (Decidable (_ ∧ _))

/-- The nearest record built from one qualifying NEARBY edge: target id,
its label (defaulting to the id) and the edge distance (defaulting to
10.0). -/
def mkNBB (G : Graph) (e : GEdge) : NearestBB :=
  ⟨e.tgt, (G.nodeData e.tgt).label.getD e.tgt, e.distance_km.getD 10⟩

/-- One iteration of the find_nearest_bloodbank loop: keep the strictly
smaller distance, first qualifying edge wins ties. -/
def nbbStep (G : Graph) (nearest : Option NearestBB) (e : GEdge) : Option NearestBB :=
  if isCandidate G e then
    match nearest with
    | none => some (mkNBB G e)
    | some nb =>
      if e.distance_km.getD 10 < nb.distance then some (mkNBB G e) else some nb
  else nearest

/-- EmergencyOrchestrator.find_nearest_bloodbank: fold over the donor
out-edges starting from the Python min_dist infinity state, modelled by
none; none is also the Python None result. -/
def find_nearest_bloodbank (G : Graph) (donor_id : String) : Option NearestBB :=
  if ¬ G.hasNode donor_id then none
  else (G.outEdges donor_id).foldl (nbbStep G) none

/-- A donor candidate row of call_donors; the message text is elided. -/
structure DonorCandidate where
  donor_id : String
  blood_type : Option String
  nearest_center : String
  distance_km : Rat
  deriving Repr, DecidableEq

/-- Sort rank of a candidate: 0 for an exact type match, 1 otherwise. -/
def donorRank (blood_type : String) (c : DonorCandidate) : Nat :=
  if c.blood_type = some blood_type then 0 else 1

/-- The lexicographic sort key of call_donors: exact match first, then
ascending distance. -/
def donorKey (blood_type : String) (a b : DonorCandidate) : Prop :=
  donorRank blood_type a < donorRank blood_type b
    ∨ (donorRank blood_type a = donorRank blood_type b ∧ a.distance_km ≤ b.distance_km)

instance (blood_type : String) : DecidableRel (donorKey blood_type) := fun _ _ =>
  inferInstanceAs (Decidable (_ ∨ _ ∧ _))

/-- The eligible-donor rows collected by call_donors before sorting. -/
def eligibleDonors (G : Graph) (blood_type : String) : List DonorCandidate :=
  G.nodes.filterMap (fun p =>
    if p.2.kind = some "donor"
        ∧ (p.2.blood_type = some blood_type ∨ p.2.blood_type = some "O-") then
      match find_nearest_bloodbank G p.1 with
      | some bb => some ⟨p.1, p.2.blood_type, bb.id, bb.distance⟩
      | none => none
    else none)

/-- EmergencyOrchestrator.call_donors: eligible donors, stable-sorted by
the match-then-distance key, truncated to 50. -/
def call_donors (G : Graph) (blood_type : String) : List DonorCandidate :=
  (List.insertionSort (donorKey blood_type) (eligibleDonors G blood_type)).take 50

instance : IsTotal Source (fun a b => a.distance_km ≤ b.distance_km) :=
  ⟨fun a b => le_total a.distance_km b.distance_km⟩

instance : IsTrans Source (fun a b => a.distance_km ≤ b.distance_km) :=
  ⟨fun _ _ _ hab hbc => le_trans hab hbc⟩

instance : IsTotal UnitRef (fun a b => a.expiry_days ≤ b.expiry_days) :=
  ⟨fun a b => le_total a.expiry_days b.expiry_days⟩

instance : IsTrans UnitRef (fun a b => a.expiry_days ≤ b.expiry_days) :=
  ⟨fun _ _ _ hab hbc => le_trans hab hbc⟩

/-- The walk order the spec describes for the greedy strategy: sources
ascending by distance, units within each source ascending by expiry,
flattened into the corresponding transfers. -/
def orderedTransferPlan (hospital_id : String) (sources : List Source) : List Transfer :=
  (sortSources sources).flatMap
    (fun s => (sortUnits s.available_units).map (transferOf hospital_id s))

lemma greedyInner_eq (hid : String) (s : Source) (needed : Int) :
    ∀ (us : List UnitRef) (acc : List Transfer),
      greedyInner hid s needed us acc
        = acc ++ (us.map (transferOf hid s)).take (needed - acc.length).toNat
  | [], acc => by simp [greedyInner]
  | u :: us, acc => by
    unfold greedyInner
    split
    · rename_i hle
      have h0 : (needed - (acc.length : Int)).toNat = 0 := by omega
      simp [h0]
    · rename_i hlt
      rw [greedyInner_eq hid s needed us (acc ++ [transferOf hid s u])]
      have h1 : (needed - (acc.length : Int)).toNat
          = (needed - (((acc ++ [transferOf hid s u]).length : Nat) : Int)).toNat + 1 := by
        simp only [List.length_append, List.length_cons, List.length_nil]
        omega
      rw [List.map_cons, h1, List.take_succ_cons]
      simp

lemma greedyOuter_eq (hid : String) (needed : Int) :
    ∀ (ss : List Source) (acc : List Transfer),
      greedyOuter hid needed ss acc
        = acc ++ (ss.flatMap
            (fun s => (sortUnits s.available_units).map (transferOf hid s))).take
              (needed - acc.length).toNat
  | [], acc => by simp [greedyOuter]
  | s :: ss, acc => by
    show (if needed ≤ ((greedyInner hid s needed (sortUnits s.available_units) acc).length : Int)
        then greedyInner hid s needed (sortUnits s.available_units) acc
        else greedyOuter hid needed ss (greedyInner hid s needed (sortUnits s.available_units) acc))
      = acc ++ ((s :: ss).flatMap
          (fun s => (sortUnits s.available_units).map (transferOf hid s))).take
            (needed - (acc.length : Int)).toNat
    rw [greedyInner_eq]
    split
    · rename_i hle
      rw [List.flatMap_cons, List.take_append_eq_append_take]
      have hlen : (needed - (acc.length : Int)).toNat
          ≤ ((sortUnits s.available_units).map (transferOf hid s)).length := by
        simp only [List.length_append, List.length_take] at hle
        omega
      have h0 : (needed - (acc.length : Int)).toNat
          - ((sortUnits s.available_units).map (transferOf hid s)).length = 0 := by omega
      rw [h0, List.take_zero, List.append_nil]
    · rename_i hgt
      rw [greedyOuter_eq hid needed ss _]
      rw [List.flatMap_cons, List.take_append_eq_append_take]
      simp only [List.length_append, List.length_take] at hgt ⊢
      have h2 : (needed - ((acc.length
            + min (needed - (acc.length : Int)).toNat
                ((sortUnits s.available_units).map (transferOf hid s)).length : Nat) : Int)).toNat
          = (needed - (acc.length : Int)).toNat
            - ((sortUnits s.available_units).map (transferOf hid s)).length := by
        omega
      rw [h2, List.append_assoc]

lemma greedy_allocation_eq_take (hid : String) (sources : List Source) (needed : Int) :
    greedy_allocation hid sources needed
      = (orderedTransferPlan hid sources).take needed.toNat := by
  unfold greedy_allocation orderedTransferPlan
  rw [greedyOuter_eq]
  simp [sortSources]

lemma length_orderedTransferPlan (hid : String) (sources : List Source) :
    (orderedTransferPlan hid sources).length
      = (sources.map (fun s => s.available_units.length)).sum := by
  unfold orderedTransferPlan
  rw [List.length_flatMap]
  have h1 : List.map
      (List.length ∘ fun s => (sortUnits s.available_units).map (transferOf hid s))
      (sortSources sources)
      = List.map (fun s => s.available_units.length) (sortSources sources) := by
    apply List.map_congr_left
    intro s _
    simp [sortUnits, List.length_insertionSort]
  rw [h1]
  exact ((List.perm_insertionSort
    (fun a b : Source => a.distance_km ≤ b.distance_km) sources).map
      (fun s => s.available_units.length)).sum_eq

/-- C3: greedy_allocation returns exactly the first units of the
distance-then-expiry walk order: it equals the units_needed-prefix of
orderedTransferPlan, its length is the minimum of units_needed and the
total number of available units (no padding), and on sources at 2, 5
and 1 km holding single units of expiry 3, 1 and 9 days with two units
needed it picks the 1 km source then the 2 km source. -/
theorem c3_greedy_allocation :
    (∀ (hid : String) (sources : List Source) (needed : Int),
      greedy_allocation hid sources needed
        = (orderedTransferPlan hid sources).take needed.toNat)
    ∧ (∀ (hid : String) (sources : List Source) (needed : Int),
      (greedy_allocation hid sources needed).length
        = min needed.toNat ((sources.map (fun s => s.available_units.length)).sum))
    ∧ ((greedy_allocation "hosp"
        [⟨"src2km", 2, [⟨"u2", some "O-", 3⟩]⟩,
         ⟨"src5km", 5, [⟨"u5", some "O-", 1⟩]⟩,
         ⟨"src1km", 1, [⟨"u1", some "O-", 9⟩]⟩] 2).map (fun t => t.fromLoc)
      = ["src1km", "src2km"]) := by
  refine ⟨greedy_allocation_eq_take, ?_, by decide⟩
  intro hid sources needed
  rw [greedy_allocation_eq_take, List.length_take, length_orderedTransferPlan]

lemma handle_emergency_local (hav : Rat → Rat → Rat → Rat → Rat) (gnn : Option Scorer)
    (st : OrchestratorState) (now : Nat) (eid hid bt : String) (n : Int)
    (h1 : n - ((check_local_inventory st.G hid bt).length : Int) ≤ 0) :
    handle_emergency hav gnn st now eid hid bt n
      = (⟨"success", [], (check_local_inventory st.G hid bt).length, 0, []⟩, st) := by
  simp only [handle_emergency]
  rw [if_pos h1]

lemma handle_emergency_failed (hav : Rat → Rat → Rat → Rat → Rat) (gnn : Option Scorer)
    (st : OrchestratorState) (now : Nat) (eid hid bt : String) (n : Int)
    (h1 : ¬ n - ((check_local_inventory st.G hid bt).length : Int) ≤ 0)
    (h2 : find_compatible_sources hav st.G hid bt = []) :
    handle_emergency hav gnn st now eid hid bt n
      = (⟨"failed", [], (check_local_inventory st.G hid bt).length, 0, []⟩, st) := by
  simp only [handle_emergency]
  rw [if_neg h1, if_pos h2]

lemma handle_emergency_main (hav : Rat → Rat → Rat → Rat → Rat) (gnn : Option Scorer)
    (st : OrchestratorState) (now : Nat) (eid hid bt : String) (n : Int)
    (h1 : ¬ n - ((check_local_inventory st.G hid bt).length : Int) ≤ 0)
    (h2 : ¬ find_compatible_sources hav st.G hid bt = []) :
    handle_emergency hav gnn st now eid hid bt n
      = (⟨if n - ((check_local_inventory st.G hid bt).length : Int)
            ≤ ((allocatedTransfers gnn st.G eid hid bt
                (find_compatible_sources hav st.G hid bt)
                (n - ((check_local_inventory st.G hid bt).length : Int))).length : Int)
          then "success" else "partial",
        allocatedTransfers gnn st.G eid hid bt (find_compatible_sources hav st.G hid bt)
          (n - ((check_local_inventory st.G hid bt).length : Int)),
        (check_local_inventory st.G hid bt).length
          + (allocatedTransfers gnn st.G eid hid bt
              (find_compatible_sources hav st.G hid bt)
              (n - ((check_local_inventory st.G hid bt).length : Int))).length,
        pyInt (pyMaxD ((allocatedTransfers gnn st.G eid hid bt
          (find_compatible_sources hav st.G hid bt)
          (n - ((check_local_inventory st.G hid bt).length : Int))).map
            (fun t => t.distance_km * 3))),
        generate_notifications hid (allocatedTransfers gnn st.G eid hid bt
          (find_compatible_sources hav st.G hid bt)
          (n - ((check_local_inventory st.G hid bt).length : Int)))⟩,
      reserve_units st (allocatedTransfers gnn st.G eid hid bt
        (find_compatible_sources hav st.G hid bt)
        (n - ((check_local_inventory st.G hid bt).length : Int))) now) := by
  simp only [handle_emergency]
  rw [if_neg h1, if_neg h2]

/-- C10: handle_emergency never changes the graph component of the
orchestrator state, and changes the reservation ledger only by
appending entries, leaving existing entries intact. -/
theorem c10_frame_effect :
    ∀ (hav : Rat → Rat → Rat → Rat → Rat) (gnn : Option Scorer)
      (st : OrchestratorState) (now : Nat) (eid hid bt : String) (n : Int),
      (handle_emergency hav gnn st now eid hid bt n).2.G = st.G
      ∧ ∃ appended, (handle_emergency hav gnn st now eid hid bt n).2.active_transfers
          = st.active_transfers ++ appended := by
  intro hav gnn st now eid hid bt n
  by_cases h1 : n - ((check_local_inventory st.G hid bt).length : Int) ≤ 0
  · rw [handle_emergency_local hav gnn st now eid hid bt n h1]
    exact ⟨rfl, [], by simp⟩
  · by_cases h2 : find_compatible_sources hav st.G hid bt = []
    · rw [handle_emergency_failed hav gnn st now eid hid bt n h1 h2]
      exact ⟨rfl, [], by simp⟩
    · rw [handle_emergency_main hav gnn st now eid hid bt n h1 h2]
      exact ⟨rfl, _, rfl⟩

/-- C7: when the compatible local inventory already covers the request,
handle_emergency returns success with no transfers, zero ETA, the local
count as units secured, and an entirely unchanged state. -/
theorem c7_local_sufficiency :
    ∀ (hav : Rat → Rat → Rat → Rat → Rat) (gnn : Option Scorer)
      (st : OrchestratorState) (now : Nat) (eid hid bt : String) (n : Int),
      n ≤ ((check_local_inventory st.G hid bt).length : Int) →
      handle_emergency hav gnn st now eid hid bt n
        = (⟨"success", [], (check_local_inventory st.G hid bt).length, 0, []⟩, st) := by
  intro hav gnn st now eid hid bt n h
  exact handle_emergency_local hav gnn st now eid hid bt n (by omega)

/-- A constant stand-in distance function for concrete instances whose
outcome does not depend on haversine values. -/
def hav0 : Rat → Rat → Rat → Rat → Rat := fun _ _ _ _ => 0

/-- A hospital H1 whose only O- unit U1 sits at the hospital itself, and
no other facility exists. -/
def G5 : Graph :=
  ⟨[("H1", { kind := some "hospital" }),
    ("U1", { kind := some "blood_unit", blood_type := some "O-",
             expiry_days_remaining := some 5 })],
   [⟨"U1", "H1", some "HAS_BLOOD_UNIT", none⟩]⟩

/-- Witness for C7 at a concrete graph: one local unit, one requested. -/
theorem c7_local_sufficiency_witness :
    (1 : Int) ≤ ((check_local_inventory G5 "H1" "O-").length : Int)
    ∧ handle_emergency hav0 none ⟨G5, []⟩ 0 "e1" "H1" "O-" 1
        = (⟨"success", [], (check_local_inventory G5 "H1" "O-").length, 0, []⟩, ⟨G5, []⟩) :=
  ⟨by decide, c7_local_sufficiency hav0 none ⟨G5, []⟩ 0 "e1" "H1" "O-" 1 (by decide)⟩

lemma allocatedTransfers_error (f : Scorer)
    (hf : ∀ G e bt n, ∃ msg, f G e bt n = Except.error msg)
    (G : Graph) (eid hid bt : String) (sources : List Source) (needed : Int) :
    allocatedTransfers (some f) G eid hid bt sources needed
      = allocatedTransfers none G eid hid bt sources needed := by
  obtain ⟨msg, hmsg⟩ := hf G eid bt needed
  simp only [allocatedTransfers, hmsg]

/-- C8: a configured scorer that raises on every call produces exactly
the result and successor state of a run with no scorer configured. -/
theorem c8_scorer_transparency :
    ∀ (hav : Rat → Rat → Rat → Rat → Rat) (f : Scorer),
      (∀ G e bt n, ∃ msg, f G e bt n = Except.error msg) →
      ∀ (st : OrchestratorState) (now : Nat) (eid hid bt : String) (n : Int),
        handle_emergency hav (some f) st now eid hid bt n
          = handle_emergency hav none st now eid hid bt n := by
  intro hav f hf st now eid hid bt n
  by_cases h1 : n - ((check_local_inventory st.G hid bt).length : Int) ≤ 0
  · rw [handle_emergency_local hav (some f) st now eid hid bt n h1,
      handle_emergency_local hav none st now eid hid bt n h1]
  · by_cases h2 : find_compatible_sources hav st.G hid bt = []
    · rw [handle_emergency_failed hav (some f) st now eid hid bt n h1 h2,
        handle_emergency_failed hav none st now eid hid bt n h1 h2]
    · rw [handle_emergency_main hav (some f) st now eid hid bt n h1 h2,
        handle_emergency_main hav none st now eid hid bt n h1 h2,
        allocatedTransfers_error f hf]

/-- A hospital H1 with a NEARBY bloodbank B1 two km away holding one
compatible O- unit U1. -/
def Gex : Graph :=
  ⟨[("H1", { kind := some "hospital" }),
    ("B1", { kind := some "bloodbank" }),
    ("U1", { kind := some "blood_unit", blood_type := some "O-",
             expiry_days_remaining := some 10 })],
   [⟨"H1", "B1", some "NEARBY", some 2⟩,
    ⟨"U1", "B1", some "HAS_BLOOD_UNIT", none⟩]⟩

/-- A scorer that raises on every call. -/
def failingScorer : Scorer := fun _ _ _ _ => Except.error "scorer down"

/-- Witness for C8 at a concrete graph that reaches the allocation step. -/
theorem c8_scorer_transparency_witness :
    handle_emergency hav0 (some failingScorer) ⟨Gex, []⟩ 0 "e1" "H1" "O-" 1
      = handle_emergency hav0 none ⟨Gex, []⟩ 0 "e1" "H1" "O-" 1 :=
  c8_scorer_transparency hav0 failingScorer (fun _ _ _ _ => ⟨"scorer down", rfl⟩)
    ⟨Gex, []⟩ 0 "e1" "H1" "O-" 1

/-- C5 counterexample: a hospital holding one compatible local unit but
needing two, with no discoverable sources, is reported failed with one
unit secured, not partial. -/
theorem c5_counterexample_failed_with_local_units :
    (handle_emergency hav0 none ⟨G5, []⟩ 0 "e1" "H1" "O-" 2).1.status = "failed"
    ∧ (handle_emergency hav0 none ⟨G5, []⟩ 0 "e1" "H1" "O-" 2).1.units_secured = 1 := by
  constructor <;> decide

/-- C5 amended: the status is failed exactly when the local inventory
does not cover the request and source discovery returns no sources,
regardless of the local count; success exactly when the units secured
meet the request; partial exactly when sources were found but the units
secured fall short. -/
theorem c5_amended_status :
    ∀ (hav : Rat → Rat → Rat → Rat → Rat) (gnn : Option Scorer)
      (st : OrchestratorState) (now : Nat) (eid hid bt : String) (n : Int),
      ((handle_emergency hav gnn st now eid hid bt n).1.status = "failed"
        ↔ ((check_local_inventory st.G hid bt).length : Int) < n
          ∧ find_compatible_sources hav st.G hid bt = [])
      ∧ ((handle_emergency hav gnn st now eid hid bt n).1.status = "success"
        ↔ n ≤ ((handle_emergency hav gnn st now eid hid bt n).1.units_secured : Int))
      ∧ ((handle_emergency hav gnn st now eid hid bt n).1.status = "partial"
        ↔ find_compatible_sources hav st.G hid bt ≠ []
          ∧ ((handle_emergency hav gnn st now eid hid bt n).1.units_secured : Int) < n) := by
  intro hav gnn st now eid hid bt n
  by_cases h1 : n - ((check_local_inventory st.G hid bt).length : Int) ≤ 0
  · rw [handle_emergency_local hav gnn st now eid hid bt n h1]
    dsimp only
    refine ⟨⟨fun h => absurd h (by decide), fun h => absurd h.1 (by omega)⟩, ?_, ?_⟩
    · exact iff_of_true rfl (by omega)
    · exact ⟨fun h => absurd h (by decide), fun h => absurd h.2 (by omega)⟩
  · by_cases h2 : find_compatible_sources hav st.G hid bt = []
    · rw [handle_emergency_failed hav gnn st now eid hid bt n h1 h2]
      dsimp only
      refine ⟨iff_of_true rfl ⟨by omega, h2⟩, ?_, ?_⟩
      · exact iff_of_false (by decide) (by omega)
      · exact iff_of_false (by decide) (fun h => h.1 h2)
    · rw [handle_emergency_main hav gnn st now eid hid bt n h1 h2]
      dsimp only
      generalize allocatedTransfers gnn st.G eid hid bt
        (find_compatible_sources hav st.G hid bt)
        (n - ((check_local_inventory st.G hid bt).length : Int)) = ts
      by_cases hc : n - ((check_local_inventory st.G hid bt).length : Int)
          ≤ (ts.length : Int)
      · rw [if_pos hc]
        refine ⟨iff_of_false (by decide) (fun h => h2 h.2), ?_, ?_⟩
        · exact iff_of_true rfl (by push_cast; omega)
        · exact iff_of_false (by decide) (fun h => absurd h.2 (by push_cast; omega))
      · rw [if_neg hc]
        refine ⟨iff_of_false (by decide) (fun h => h2 h.2), ?_, ?_⟩
        · exact iff_of_false (by decide) (by push_cast; omega)
        · exact iff_of_true rfl ⟨h2, by push_cast; omega⟩

/-- C1: the reservation ledger is never consulted by discovery, so two
successive identical emergencies on the same graph both secure unit U1,
and the ledger ends with two active reservations for the same unit. -/
theorem c1_unit_reserved_twice :
    ((handle_emergency hav0 none ⟨Gex, []⟩ 0 "e1" "H1" "O-" 1).1.transfers.map
        (fun t => t.unit_id) = ["U1"])
    ∧ ((handle_emergency hav0 none
          (handle_emergency hav0 none ⟨Gex, []⟩ 0 "e1" "H1" "O-" 1).2
          1 "e2" "H1" "O-" 1).1.transfers.map (fun t => t.unit_id) = ["U1"])
    ∧ ((handle_emergency hav0 none
          (handle_emergency hav0 none ⟨Gex, []⟩ 0 "e1" "H1" "O-" 1).2
          1 "e2" "H1" "O-" 1).2.active_transfers.map (fun r => r.unit_id)
        = ["U1", "U1"]) := by
  refine ⟨?_, ?_, ?_⟩ <;> decide

/-- A graph with an expired unit UX (minus one day) at bloodbank B1 and
an expired unit UL (minus three days) already at hospital H1. -/
def Gexp : Graph :=
  ⟨[("H1", { kind := some "hospital" }),
    ("B1", { kind := some "bloodbank" }),
    ("UX", { kind := some "blood_unit", blood_type := some "O-",
             expiry_days_remaining := some (-1) }),
    ("UL", { kind := some "blood_unit", blood_type := some "O-",
             expiry_days_remaining := some (-3) })],
   [⟨"H1", "B1", some "NEARBY", some 2⟩,
    ⟨"UX", "B1", some "HAS_BLOOD_UNIT", none⟩,
    ⟨"UL", "H1", some "HAS_BLOOD_UNIT", none⟩]⟩

/-- C4: units with nonpositive expiry are not excluded anywhere: the
expired local unit UL is counted by the inventory check, the expired
unit UX is listed as available at B1, and the emergency is answered
with a transfer of the expired unit. -/
theorem c4_expired_units_are_eligible :
    (check_local_inventory Gexp "H1" "O-" = ["UL"])
    ∧ (get_available_units Gexp "B1" "O-" = [⟨"UX", some "O-", -1⟩])
    ∧ ((handle_emergency hav0 none ⟨Gexp, []⟩ 0 "e1" "H1" "O-" 2).1.transfers.map
        (fun t => t.unit_id) = ["UX"])
    ∧ (handle_emergency hav0 none ⟨Gexp, []⟩ 0 "e1" "H1" "O-" 2).1.status
        = "success" := by
  refine ⟨?_, ?_, ?_, ?_⟩ <;> decide

/-- A hospital at latitude and longitude zero (legitimate coordinates,
but falsy in Python) with no NEARBY edges, while bloodbank B1 holds a
compatible unit and has truthy coordinates. -/
def G6 : Graph :=
  ⟨[("H1", { kind := some "hospital", lat := some 0, lon := some 0 }),
    ("B1", { kind := some "bloodbank", lat := some 1, lon := some 1 }),
    ("U1", { kind := some "blood_unit", blood_type := some "O-",
             expiry_days_remaining := some 10 })],
   [⟨"U1", "B1", some "HAS_BLOOD_UNIT", none⟩]⟩

/-- C6 counterexample: the fast path yields zero sources, the fallback
scan would find bloodbank B1, yet find_compatible_sources returns
nothing because the trigger also requires truthy hospital coordinates
and latitude zero is falsy. -/
theorem c6_counterexample_fallback_skipped :
    fastSources G6 "H1" "O-" = []
    ∧ fallbackScan hav0 G6 "H1" "O-" ((G6.nodeData "H1").lat.getD 0)
        ((G6.nodeData "H1").lon.getD 0) ≠ []
    ∧ find_compatible_sources hav0 G6 "H1" "O-" = [] := by
  refine ⟨by decide, by decide, by decide⟩

lemma fallbackBanks_dist_le (hav : Rat → Rat → Rat → Rat → Rat) (G : Graph)
    (bt : String) (h_lat h_lon : Rat) (s : Source)
    (hs : s ∈ fallbackBanks hav G bt h_lat h_lon) : s.distance_km ≤ 20 := by
  unfold fallbackBanks at hs
  rw [List.mem_filterMap] at hs
  obtain ⟨p, _, hp⟩ := hs
  repeat' split at hp
  all_goals simp_all
  rw [← hp.2.2]
  exact hp.1

lemma fallbackHospitals_dist_le (hav : Rat → Rat → Rat → Rat → Rat) (G : Graph)
    (hid bt : String) (h_lat h_lon : Rat) (s : Source)
    (hs : s ∈ fallbackHospitals hav G hid bt h_lat h_lon) : s.distance_km ≤ 20 := by
  unfold fallbackHospitals at hs
  rw [List.mem_filterMap] at hs
  obtain ⟨p, _, hp⟩ := hs
  repeat' split at hp
  all_goals simp_all
  rw [← hp.2.2]
  exact hp.1

/-- C6 amended: exactly one discovery path contributes per call, but the
trigger of the fallback scan is fast-path emptiness AND truthy hospital
coordinates: with an absent hospital the result is empty; with a
nonempty fast path the result is exactly the fast path; with an empty
fast path and truthy coordinates the result is exactly the 20 km
geodesic scan; with an empty fast path and falsy coordinates the result
is empty; and every source the scan keeps lies within 20 km. -/
theorem c6_discovery_trigger :
    ∀ (hav : Rat → Rat → Rat → Rat → Rat) (G : Graph) (hid bt : String),
      (G.hasNode hid = false → find_compatible_sources hav G hid bt = [])
      ∧ (G.hasNode hid = true → fastSources G hid bt ≠ [] →
          find_compatible_sources hav G hid bt = fastSources G hid bt)
      ∧ (G.hasNode hid = true → fastSources G hid bt = [] →
          truthyR (G.nodeData hid).lat = true → truthyR (G.nodeData hid).lon = true →
          find_compatible_sources hav G hid bt
            = fallbackScan hav G hid bt ((G.nodeData hid).lat.getD 0)
                ((G.nodeData hid).lon.getD 0))
      ∧ (G.hasNode hid = true → fastSources G hid bt = [] →
          ¬(truthyR (G.nodeData hid).lat = true ∧ truthyR (G.nodeData hid).lon = true) →
          find_compatible_sources hav G hid bt = [])
      ∧ (∀ s ∈ fallbackScan hav G hid bt ((G.nodeData hid).lat.getD 0)
            ((G.nodeData hid).lon.getD 0), s.distance_km ≤ 20) := by
  intro hav G hid bt
  refine ⟨?_, ?_, ?_, ?_, ?_⟩
  · intro h
    simp only [find_compatible_sources]
    rw [if_pos (by simp [h])]
  · intro hn hfast
    simp only [find_compatible_sources]
    rw [if_neg (by simp [hn])]
    rw [if_neg (fun hcond => hfast (List.length_eq_zero.mp hcond.1))]
  · intro hn hfast hlat hlon
    simp only [find_compatible_sources]
    rw [if_neg (by simp [hn])]
    rw [if_pos ⟨by rw [hfast]; rfl, hlat, hlon⟩]
    rw [hfast, List.nil_append]
  · intro hn hfast hcoords
    simp only [find_compatible_sources]
    rw [if_neg (by simp [hn])]
    rw [if_neg (fun hcond => hcoords ⟨hcond.2.1, hcond.2.2⟩)]
    exact hfast
  · intro s hs
    rcases List.mem_append.mp hs with h | h
    · exact fallbackBanks_dist_le hav G bt _ _ s h
    · exact fallbackHospitals_dist_le hav G hid bt _ _ s h

/-- Witness for C6 amended: at the concrete graphs, the falsy-coordinate
hospital gets an empty result despite an empty fast path, and a hospital
with a stocked NEARBY neighbor gets exactly the fast path. -/
theorem c6_discovery_trigger_witness :
    find_compatible_sources hav0 G6 "H1" "O-" = []
    ∧ find_compatible_sources hav0 Gex "H1" "O-" = fastSources Gex "H1" "O-" := by
  have h6 := c6_discovery_trigger hav0 G6 "H1" "O-"
  have hx := c6_discovery_trigger hav0 Gex "H1" "O-"
  exact ⟨h6.2.2.2.1 (by decide) (by decide) (by decide),
    hx.2.1 (by decide) (by decide)⟩

lemma nbbFold_some (G : Graph) :
    ∀ (es : List GEdge) (b : Option NearestBB) (nb : NearestBB),
      es.foldl (nbbStep G) b = some nb →
      ((b = some nb ∨ ∃ e ∈ es, isCandidate G e ∧ nb = mkNBB G e)
        ∧ (∀ hb, b = some hb → nb.distance ≤ hb.distance)
        ∧ (∀ e ∈ es, isCandidate G e → nb.distance ≤ e.distance_km.getD 10))
  | [], b, nb => fun h => by
    simp only [List.foldl_nil] at h
    refine ⟨Or.inl h, fun hb hhb => ?_, fun e he => absurd he (List.not_mem_nil e)⟩
    rw [h] at hhb
    cases Option.some.inj hhb
    exact le_refl _
  | e :: es, b, nb => fun h => by
    simp only [List.foldl_cons] at h
    obtain ⟨ih1, ih2, ih3⟩ := nbbFold_some G es (nbbStep G b e) nb h
    by_cases hc : isCandidate G e
    · match b with
      | none =>
        have hb' : nbbStep G none e = some (mkNBB G e) := by simp [nbbStep, hc]
        rw [hb'] at ih1 ih2
        refine ⟨?_, ?_, ?_⟩
        · rcases ih1 with h1 | ⟨e', he', hce', hnb⟩
          · exact Or.inr ⟨e, List.mem_cons_self e es, hc, (Option.some.inj h1).symm⟩
          · exact Or.inr ⟨e', List.mem_cons_of_mem e he', hce', hnb⟩
        · intro hb hhb
          cases hhb
        · intro e' he' hc'
          rcases List.mem_cons.mp he' with rfl | he'
          · exact ih2 (mkNBB G e') rfl
          · exact ih3 e' he' hc'
      | some hb0 =>
        by_cases hd : e.distance_km.getD 10 < hb0.distance
        · have hb' : nbbStep G (some hb0) e = some (mkNBB G e) := by
            simp [nbbStep, hc, hd]
          rw [hb'] at ih1 ih2
          refine ⟨?_, ?_, ?_⟩
          · rcases ih1 with h1 | ⟨e', he', hce', hnb⟩
            · exact Or.inr ⟨e, List.mem_cons_self e es, hc, (Option.some.inj h1).symm⟩
            · exact Or.inr ⟨e', List.mem_cons_of_mem e he', hce', hnb⟩
          · intro hb hhb
            cases Option.some.inj hhb
            exact le_trans (ih2 (mkNBB G e) rfl) (le_of_lt hd)
          · intro e' he' hc'
            rcases List.mem_cons.mp he' with rfl | he'
            · exact ih2 (mkNBB G e') rfl
            · exact ih3 e' he' hc'
        · have hb' : nbbStep G (some hb0) e = some hb0 := by
            simp [nbbStep, hc, hd]
          rw [hb'] at ih1 ih2
          refine ⟨?_, ?_, ?_⟩
          · rcases ih1 with h1 | ⟨e', he', hce', hnb⟩
            · exact Or.inl h1
            · exact Or.inr ⟨e', List.mem_cons_of_mem e he', hce', hnb⟩
          · intro hb hhb
            cases Option.some.inj hhb
            exact ih2 hb0 rfl
          · intro e' he' hc'
            rcases List.mem_cons.mp he' with rfl | he'
            · exact le_trans (ih2 hb0 rfl) (not_lt.mp hd)
            · exact ih3 e' he' hc'
    · have hb' : nbbStep G b e = b := by simp [nbbStep, hc]
      rw [hb'] at ih1 ih2
      refine ⟨?_, ih2, ?_⟩
      · rcases ih1 with h1 | ⟨e', he', hce', hnb⟩
        · exact Or.inl h1
        · exact Or.inr ⟨e', List.mem_cons_of_mem e he', hce', hnb⟩
      · intro e' he' hc'
        rcases List.mem_cons.mp he' with rfl | he'
        · exact absurd hc' hc
        · exact ih3 e' he' hc'

lemma find_nearest_bloodbank_spec (G : Graph) (did : String) (nb : NearestBB)
    (h : find_nearest_bloodbank G did = some nb) :
    (∃ e ∈ G.outEdges did, isCandidate G e ∧ nb = mkNBB G e)
    ∧ ∀ e ∈ G.outEdges did, isCandidate G e → nb.distance ≤ e.distance_km.getD 10 := by
  unfold find_nearest_bloodbank at h
  split at h
  · cases h
  · obtain ⟨h1, _, h3⟩ := nbbFold_some G (G.outEdges did) none nb h
    rcases h1 with h1 | h1
    · cases h1
    · exact ⟨h1, h3⟩

instance (bt : String) : IsTotal DonorCandidate (donorKey bt) := ⟨fun a b => by
  unfold donorKey
  rcases lt_trichotomy (donorRank bt a) (donorRank bt b) with h | h | h
  · exact Or.inl (Or.inl h)
  · rcases le_total a.distance_km b.distance_km with hd | hd
    · exact Or.inl (Or.inr ⟨h, hd⟩)
    · exact Or.inr (Or.inr ⟨h.symm, hd⟩)
  · exact Or.inr (Or.inl h)⟩

instance (bt : String) : IsTrans DonorCandidate (donorKey bt) := ⟨fun a b c hab hbc => by
  unfold donorKey at hab hbc ⊢
  rcases hab with h1 | ⟨h1, h1d⟩ <;> rcases hbc with h2 | ⟨h2, h2d⟩
  · exact Or.inl (h1.trans h2)
  · exact Or.inl (h2 ▸ h1)
  · exact Or.inl (h1 ▸ h2)
  · exact Or.inr ⟨h1.trans h2, le_trans h1d h2d⟩⟩

lemma mem_eligibleDonors {G : Graph} {bt : String} {c : DonorCandidate} :
    c ∈ eligibleDonors G bt ↔
      ∃ p ∈ G.nodes, (p.2.kind = some "donor"
          ∧ (p.2.blood_type = some bt ∨ p.2.blood_type = some "O-"))
        ∧ ∃ nb, find_nearest_bloodbank G p.1 = some nb
          ∧ c = ⟨p.1, p.2.blood_type, nb.id, nb.distance⟩ := by
  unfold eligibleDonors
  rw [List.mem_filterMap]
  constructor
  · rintro ⟨p, hp, hf⟩
    split at hf
    · rename_i hcond
      split at hf
      · rename_i nb hnb
        cases Option.some.inj hf
        exact ⟨p, hp, hcond, nb, hnb, rfl⟩
      · cases hf
    · cases hf
  · rintro ⟨p, hp, hcond, nb, hnb, rfl⟩
    refine ⟨p, hp, ?_⟩
    rw [if_pos hcond, hnb]

/-- C9: call_donors returns at most 50 rows, sorted with exact-type
matches before O- substitutes and ascending distance within each group;
every returned row is a donor node of the requested or O- type paired
with a NEARBY bloodbank out-neighbor of minimal distance_km; and when at
most 50 donors are eligible, every eligible donor appears. -/
theorem c9_call_donors :
    ∀ (G : Graph) (bt : String),
      ((call_donors G bt).length ≤ 50)
      ∧ ((call_donors G bt).Pairwise (donorKey bt))
      ∧ (∀ c ∈ call_donors G bt,
          (∃ nd, (c.donor_id, nd) ∈ G.nodes ∧ nd.kind = some "donor"
            ∧ (nd.blood_type = some bt ∨ nd.blood_type = some "O-")
            ∧ nd.blood_type = c.blood_type)
          ∧ (∃ e ∈ G.outEdges c.donor_id, isCandidate G e
              ∧ c.nearest_center = e.tgt ∧ c.distance_km = e.distance_km.getD 10)
          ∧ (∀ e ∈ G.outEdges c.donor_id, isCandidate G e →
              c.distance_km ≤ e.distance_km.getD 10))
      ∧ ((eligibleDonors G bt).length ≤ 50 →
          ∀ p ∈ G.nodes, p.2.kind = some "donor" →
            (p.2.blood_type = some bt ∨ p.2.blood_type = some "O-") →
            ∀ nb, find_nearest_bloodbank G p.1 = some nb →
            (⟨p.1, p.2.blood_type, nb.id, nb.distance⟩ : DonorCandidate)
              ∈ call_donors G bt) := by
  intro G bt
  refine ⟨List.length_take_le 50 _, ?_, ?_, ?_⟩
  · exact List.Pairwise.sublist (List.take_sublist 50 _)
      (List.sorted_insertionSort (donorKey bt) _)
  · intro c hc
    have hc2 : c ∈ eligibleDonors G bt :=
      ((List.perm_insertionSort (donorKey bt) _).mem_iff).mp (List.mem_of_mem_take hc)
    obtain ⟨p, hp, ⟨hkind, hbtcond⟩, nb, hnb, hceq⟩ := mem_eligibleDonors.mp hc2
    subst hceq
    obtain ⟨⟨e, he, hce, hnbe⟩, hmin⟩ := find_nearest_bloodbank_spec G p.1 nb hnb
    refine ⟨⟨p.2, hp, hkind, hbtcond, rfl⟩, ⟨e, he, hce, ?_, ?_⟩, fun e' he' hce' => hmin e' he' hce'⟩
    · rw [hnbe]
      rfl
    · rw [hnbe]
      rfl
  · intro hlen p hp hkind hbt nb hnb
    have hel : (⟨p.1, p.2.blood_type, nb.id, nb.distance⟩ : DonorCandidate)
        ∈ eligibleDonors G bt :=
      mem_eligibleDonors.mpr ⟨p, hp, ⟨hkind, hbt⟩, nb, hnb, rfl⟩
    unfold call_donors
    rw [List.take_of_length_le (by rw [List.length_insertionSort]; exact hlen)]
    exact ((List.perm_insertionSort (donorKey bt) _).mem_iff).mpr hel

/-- Donors D1 (A+) and D2 (O-) near bloodbanks BB1 and BB2; D1 has two
NEARBY bloodbanks at 5 km and 2 km. -/
def Gd : Graph :=
  ⟨[("D1", { kind := some "donor", blood_type := some "A+" }),
    ("D2", { kind := some "donor", blood_type := some "O-" }),
    ("BB1", { kind := some "bloodbank", label := some "Central Bank" }),
    ("BB2", { kind := some "bloodbank" })],
   [⟨"D1", "BB2", some "NEARBY", some 5⟩,
    ⟨"D1", "BB1", some "NEARBY", some 2⟩,
    ⟨"D2", "BB1", some "NEARBY", some 1⟩]⟩

/-- Witness for C9: on the concrete donor graph, donor D1 appears paired
with its closest bloodbank BB1 at 2 km, and 2 km is minimal among the
NEARBY bloodbank edges of D1. -/
theorem c9_call_donors_witness :
    (call_donors Gd "A+").length ≤ 50
    ∧ ((⟨"D1", some "A+", "BB1", 2⟩ : DonorCandidate) ∈ call_donors Gd "A+")
    ∧ (∀ e ∈ Gd.outEdges "D1", isCandidate Gd e →
        (2 : Rat) ≤ e.distance_km.getD 10) := by
  have h := c9_call_donors Gd "A+"
  refine ⟨h.1, ?_, ?_⟩
  · exact h.2.2.2 (by decide)
      ("D1", { kind := some "donor", blood_type := some "A+" })
      (by decide) (by decide) (by decide) ⟨"BB1", "Central Bank", 2⟩ (by decide)
  · exact (h.2.2.1 ⟨"D1", some "A+", "BB1", 2⟩ (by decide)).2.2
